import Mathlib

/-!
# Typed events with size-class pooled allocation

A shallow embedding of `src/typed_event/main.cpp`.

Modelling conventions
* Template parameters that are types are passed as a `CType` descriptor carrying the
  `sizeof` and `alignof` of the type; a value of such a type is its object
  representation, a list of bytes (naturals below 256), least significant byte first.
* `int` and `unsigned int` are 32 bits wide, `int` is two's complement.
* Global mutable state (the two pool managers, the C heap behind `malloc`, the objects
  built by placement new, the function-local statics and `std::cout`) is one explicit
  `World` value that is passed through every operation.
* A pointer is a natural number, `0` is `nullptr`.
* `assert` is enabled (the source defines no `NDEBUG`): a failed assertion ends the
  program, which is the `Outcome.assert_failed` result.
* Object sizes are those of an LP64 target with the Itanium C++ ABI: `sizeof(Event)` is 16,
  and the member `data_` of a `TypedEvent` follows the `Event` base subobject.
* The casts of `print_value` read the bytes found at the place of `data_`, whatever type
  the event was built with.
-/

namespace TypedEvents

/-! ## Data model -/

/-- Signal is the `enum class Signal` of the source. -/
inductive Signal where
  | Invalid
  | ButtonPressed
  | TimerExpired
  | XY_RawData
  | HIDPP
deriving DecidableEq, Repr

/-- Integer value of a signal, `static_cast<int>(signal)`. -/
def Signal.toInt : Signal → Int
  | .Invalid => 0
  | .ButtonPressed => 1
  | .TimerExpired => 2
  | .XY_RawData => 3
  | .HIDPP => 4

/-- EventPool is the `enum class EventPool` of the source. -/
inductive EventPool where
  | Static
  | Small
  | Large
deriving DecidableEq, Repr

/-- Integer value of a pool id, `static_cast<int>(poolId)`. -/
def EventPool.toInt : EventPool → Int
  | .Static => 0
  | .Small => 1
  | .Large => 2

/-- Descriptor of a C++ object type: its name, `sizeof` and `alignof`. -/
structure CType where
  name : String
  size : Nat
  align : Nat
deriving DecidableEq, Repr

/-- The type `unsigned int`. -/
def CType.unsigned_int : CType := ⟨"unsigned int", 4, 4⟩

/-- The type `int`. -/
def CType.int : CType := ⟨"int", 4, 4⟩

/-- The type `struct xy_data`, two `int` members. -/
def CType.xy_data : CType := ⟨"xy_data", 8, 4⟩

/-- The type `struct h20payload`: three `uint8_t` members and a `std::array<uint8_t, 55>`. -/
def CType.h20payload : CType := ⟨"h20payload", 58, 1⟩

/-- The alias `using ButtonMask = unsigned int`. -/
def ButtonMask : CType := CType.unsigned_int

/-- Object representation of an `unsigned int` value (reduced modulo 2^32). -/
def encode_unsigned (v : Nat) : List Nat :=
  [v % 256, v / 256 % 256, v / 65536 % 256, v / 16777216 % 256]

/-- Value of the first four bytes read as an `unsigned int`; missing bytes read as zero. -/
def decode_unsigned (bytes : List Nat) : Nat :=
  bytes.getD 0 0 % 256 + 256 * (bytes.getD 1 0 % 256) + 65536 * (bytes.getD 2 0 % 256)
    + 16777216 * (bytes.getD 3 0 % 256)

/-- Object representation of an `int` value (two's complement, reduced modulo 2^32). -/
def encode_int (v : Int) : List Nat :=
  encode_unsigned (v % 4294967296).toNat

/-- Value of the first four bytes read as a two's complement `int`. -/
def decode_int (bytes : List Nat) : Int :=
  let u := decode_unsigned bytes
  if u < 2147483648 then (u : Int) else (u : Int) - 4294967296

/-- Values of `struct xy_data`. -/
structure xy_data where
  x : Int
  y : Int
deriving DecidableEq, Repr

/-- Object representation of an `xy_data` value: `x` then `y`. -/
def xy_data.bytes (d : xy_data) : List Nat :=
  encode_int d.x ++ encode_int d.y

/-- The constant `h20payload::hidpp20_PAYLOAD_LONG_SIZE`. -/
def hidpp20_PAYLOAD_LONG_SIZE : Nat := 55

/-- Values of `struct h20payload`. -/
structure h20payload where
  deviceIdx : Nat
  featureIdx : Nat
  funcIndex_swId : Nat
  methodParams : List Nat
deriving DecidableEq, Repr

/-- Object representation of an `h20payload` value; `methodParams` is an array of exactly
`hidpp20_PAYLOAD_LONG_SIZE` bytes, elements without an initialiser are zero. -/
def h20payload.bytes (p : h20payload) : List Nat :=
  [p.deviceIdx % 256, p.featureIdx % 256, p.funcIndex_swId % 256]
    ++ (List.range hidpp20_PAYLOAD_LONG_SIZE).map (fun i => p.methodParams.getD i 0 % 256)

/-- The class `Event`: a signal, the pool the object came from and a reference count. -/
structure Event where
  signal_ : Signal
  poolId_ : EventPool
  refCount_ : Nat
deriving DecidableEq, Repr

/-- The public constructor `explicit Event(Signal sig)`. -/
def Event.ctor_public (sig : Signal) : Event :=
  { signal_ := sig, poolId_ := EventPool.Static, refCount_ := 0 }

/-- The protected constructor `explicit Event(Signal sig, EventPool poolId)`. -/
def Event.ctor_protected (sig : Signal) (poolId : EventPool) : Event :=
  { signal_ := sig, poolId_ := poolId, refCount_ := 0 }

/-- The private constructor `explicit Event(Signal sig, EventPool poolId, int)`. -/
def Event.ctor_private (sig : Signal) (poolId : EventPool) (_dummy : Int) : Event :=
  { signal_ := sig, poolId_ := poolId, refCount_ := 0 }

/-- The accessor `Event::getSignal`. -/
def Event.getSignal (e : Event) : Signal := e.signal_

/-- The accessor `Event::getPoolId`. -/
def Event.getPoolId (e : Event) : EventPool := e.poolId_

/-- The class template `TypedEvent<Sig, EvType, Pool>`: the three template arguments, the
`Event` base subobject and the member `data_` (as the object representation of an `EvType`). -/
structure TypedEvent extends Event where
  Sig : Signal
  EvType : CType
  Pool : EventPool
  data_ : List Nat
deriving DecidableEq, Repr

/-- The public constructor `explicit TypedEvent(const EvType& data)`; its
`static_assert(Pool == EventPool::Static)` leaves `Static` as the only possible `Pool`. -/
def TypedEvent.ctor_public (Sig : Signal) (EvType : CType) (data : List Nat) : TypedEvent :=
  { toEvent := Event.ctor_protected Sig EventPool.Static
    Sig := Sig, EvType := EvType, Pool := EventPool.Static, data_ := data }

/-- The private constructor `explicit TypedEvent(const EvType& data, int)`; the argument `_h`
discharges its `static_assert(Pool != EventPool::Static)`. -/
def TypedEvent.ctor_private (Sig : Signal) (EvType : CType) (Pool : EventPool)
    (_h : Pool ≠ EventPool.Static) (data : List Nat) (_dummy : Int) : TypedEvent :=
  { toEvent := Event.ctor_protected Sig Pool
    Sig := Sig, EvType := EvType, Pool := Pool, data_ := data }

/-- The accessor `TypedEvent::getEventData`. -/
def TypedEvent.getEventData (e : TypedEvent) : List Nat := e.data_

/-- A complete object that a `const Event&` can refer to: a plain `Event` or a `TypedEvent`. -/
inductive Object where
  | event (e : Event)
  | typed (t : TypedEvent)
deriving DecidableEq, Repr

/-- The `Event` base subobject that a `const Event&` designates. -/
def Object.base : Object → Event
  | .event e => e
  | .typed t => t.toEvent

/-- The bytes of the complete object that follow its `Event` base subobject. For a payload
type of alignment up to 16 the member `data_` starts there, at offset 16. -/
def Object.tail : Object → List Nat
  | .event _ => []
  | .typed t => t.data_

/-! ## Object sizes (LP64, Itanium C++ ABI) -/

/-- Round `n` up to a multiple of `a`. -/
def roundUp (n a : Nat) : Nat :=
  if a = 0 then n else (n + a - 1) / a * a

/-- The size `sizeof(Event)`: two 4-byte enumerations and an 8-byte `uint_fast32_t`. -/
def sizeof_Event : Nat := 16

/-- The alignment `alignof(Event)`. -/
def alignof_Event : Nat := 8

/-- The size `sizeof(TypedEvent<Sig, EvType, Pool>)`: the base subobject, then `data_` at
its alignment, then padding up to the alignment of the whole object. -/
def sizeof_TypedEvent (EvType : CType) : Nat :=
  roundUp (roundUp sizeof_Event EvType.align + EvType.size) (max alignof_Event EvType.align)

/-! ## Pools and program state -/

/-- The class `MemoryPoolManager`. The source class has no data members; the model records
the block sizes passed to `get`, most recent first, so that acquisitions can be observed. -/
structure MemoryPoolManager where
  requests : List Nat
deriving DecidableEq, Repr

/-- An item written to `std::cout` by one `operator<<`. -/
inductive Tok where
  | str (s : String)
  | int (i : Int)
  | endl
deriving DecidableEq, Repr

/-- Program state. `malloc_results` lists the pointers the next calls of `malloc` return
(`0` for a failed call, and a failed call once the list is used up). -/
structure World where
  global_small_pool_manager : MemoryPoolManager
  global_large_pool_manager : MemoryPoolManager
  malloc_results : List Nat
  memory : List (Nat × Object)
  statics : List ((Signal × CType) × TypedEvent)
  cout : List Tok
deriving DecidableEq, Repr

/-- The null pointer. -/
def nullptr : Nat := 0

/-- The library function `malloc`: the next pointer of the heap, or `nullptr`. -/
def malloc (_size : Nat) (w : World) : Nat × World :=
  match w.malloc_results with
  | [] => (nullptr, w)
  | p :: rest => (p, { w with malloc_results := rest })

/-- A `MemoryPoolManager&` bound to one of the two global instances. -/
inductive PoolRef where
  | global_small_pool_manager
  | global_large_pool_manager
deriving DecidableEq, Repr

/-- The manager a `MemoryPoolManager&` refers to. -/
def World.pool (w : World) : PoolRef → MemoryPoolManager
  | .global_small_pool_manager => w.global_small_pool_manager
  | .global_large_pool_manager => w.global_large_pool_manager

/-- The method `MemoryPoolManager::get`: `return malloc(blockSize);`. -/
def MemoryPoolManager.get (self : PoolRef) (blockSize : Nat) (w : World) : Nat × World :=
  let r := malloc blockSize w
  match self with
  | .global_small_pool_manager =>
    (r.1, { r.2 with global_small_pool_manager :=
              { requests := blockSize :: r.2.global_small_pool_manager.requests } })
  | .global_large_pool_manager =>
    (r.1, { r.2 with global_large_pool_manager :=
              { requests := blockSize :: r.2.global_large_pool_manager.requests } })

/-- The function template `event_pool_selector<T>`. -/
def event_pool_selector (T : CType) : EventPool :=
  let threshold := 42
  if T.size ≤ threshold then EventPool.Small else EventPool.Large

/-- The function template `get_pool_manager<T>`. -/
def get_pool_manager (T : CType) : PoolRef :=
  if event_pool_selector T = EventPool.Small then PoolRef.global_small_pool_manager
  else PoolRef.global_large_pool_manager

/-- Result of a call: it returns `value` to its caller in state `w`, or the program ends in
a failed `assert`, or the behaviour is undefined. -/
inductive Outcome (α : Type) where
  | ok (value : α) (w : World)
  | assert_failed
  | undefined
deriving DecidableEq, Repr

/-- Placement new: the object `o` is constructed at address `p`. -/
def placement_new (p : Nat) (o : Object) (w : World) : World :=
  { w with memory := (p, o) :: w.memory }

/-- The object at address `p`, for dereferencing a pointer to an event. -/
def World.deref (w : World) (p : Nat) : Option Object :=
  (w.memory.find? (fun entry => entry.1 = p)).map (fun entry => entry.2)

/-- The factory function `make_Event`. -/
def make_Event (sig : Signal) (w : World) : Outcome Nat :=
  let r := MemoryPoolManager.get PoolRef.global_small_pool_manager sizeof_Event w
  let mem_block := r.1
  if mem_block ≠ nullptr then
    Outcome.ok mem_block
      (placement_new mem_block (Object.event (Event.ctor_private sig EventPool.Small 0)) r.2)
  else Outcome.assert_failed

/-- The factory function template `make_TypedEvent<EvTag, EvType>(args...)`. -/
def make_TypedEvent (EvTag : Signal) (EvType : CType) (args : List Nat) (w : World) :
    Outcome Nat :=
  let blockSize := sizeof_TypedEvent EvType
  let pool_manager := get_pool_manager EvType
  let r := MemoryPoolManager.get pool_manager blockSize w
  let mem_block := r.1
  if mem_block ≠ nullptr then
    let poolId := event_pool_selector EvType
    have h : poolId ≠ EventPool.Static := by
      show event_pool_selector EvType ≠ EventPool.Static
      simp only [event_pool_selector]
      split <;> simp
    let event := TypedEvent.ctor_private EvTag EvType poolId h args 0
    Outcome.ok mem_block (placement_new mem_block (Object.typed event) r.2)
  else Outcome.assert_failed

/-! ## Signal-driven recovery -/

/-- The expression `std::cout << t`. -/
def World.put (w : World) (t : Tok) : World :=
  { w with cout := w.cout ++ [t] }

/-- The expression `static_cast<const TypedEvent<Sig, T>&>(event).getEventData()`: the
`sizeof(T)` bytes found where `TypedEvent<Sig, T>` keeps `data_`, right after the `Event`
base subobject; `none` when the referenced object is shorter, where the read is undefined. -/
def static_cast_getEventData (T : CType) (event : Object) : Option (List Nat) :=
  if T.size ≤ event.tail.length then some (event.tail.take T.size) else none

/-- The function `print_value`. -/
def print_value (event : Object) (w : World) : Outcome Unit :=
  let w := ((((w.put (Tok.str "Event pool:")).put (Tok.int event.base.getPoolId.toInt)).put
    (Tok.str " signal:")).put (Tok.int event.base.getSignal.toInt)).put (Tok.str " data:")
  match event.base.getSignal with
  | Signal.ButtonPressed =>
    match static_cast_getEventData CType.int event with
    | some e => Outcome.ok () ((w.put (Tok.int (decode_int e))).put Tok.endl)
    | none => Outcome.undefined
  | Signal.XY_RawData =>
    match static_cast_getEventData CType.xy_data event with
    | some e =>
      Outcome.ok () (((((w.put (Tok.str "x:")).put (Tok.int (decode_int e))).put
        (Tok.str " y:")).put (Tok.int (decode_int (e.drop 4)))).put Tok.endl)
    | none => Outcome.undefined
  | Signal.HIDPP =>
    match static_cast_getEventData CType.h20payload event with
    | some e =>
      Outcome.ok () (((w.put (Tok.str "deviceIdx:")).put (Tok.int (e.getD 0 0))).put Tok.endl)
    | none => Outcome.undefined
  | _ => Outcome.ok () ((w.put (Tok.str "N/A")).put Tok.endl)

/-- The function-local static `e` of `get_static_typed_event_generic<sig, T>`, if its
initialisation has already run. -/
def World.find_static (w : World) (sig : Signal) (T : CType) : Option TypedEvent :=
  (w.statics.find? (fun entry => entry.1 = (sig, T))).map (fun entry => entry.2)

/-- The function template `get_static_typed_event_generic<sig, T>(data)` with its
function-local `static const TypedEvent<sig, T> e(data)`, one per instantiation. -/
def get_static_typed_event_generic (sig : Signal) (T : CType) (data : List Nat) (w : World) :
    TypedEvent × World :=
  match w.find_static sig T with
  | some e => (e, w)
  | none =>
    let e := TypedEvent.ctor_public sig T data
    (e, { w with statics := ((sig, T), e) :: w.statics })

/-- Successive calls `get_static_typed_event_generic<sig, T>(d)`, one for each argument `d`
of the list in order, with the events they return. -/
def get_static_typed_event_generic_calls (sig : Signal) (T : CType) :
    List (List Nat) → World → List TypedEvent × World
  | [], w => ([], w)
  | d :: ds, w =>
    let r := get_static_typed_event_generic sig T d w
    let rs := get_static_typed_event_generic_calls sig T ds r.2
    (r.1 :: rs.1, rs.2)

/-- Sequencing of two steps of the program. -/
def Outcome.andThen {α β : Type} (r : Outcome α) (f : α → World → Outcome β) : Outcome β :=
  match r with
  | Outcome.ok a w => f a w
  | Outcome.assert_failed => Outcome.assert_failed
  | Outcome.undefined => Outcome.undefined

/-- The expression `*p` for a pointer to an event. -/
def deref_event (p : Nat) (w : World) : Outcome Object :=
  match w.deref p with
  | some o => Outcome.ok o w
  | none => Outcome.undefined

/-- The function `get_static_event`. -/
def get_static_event : Object :=
  Object.event (Event.ctor_public Signal.TimerExpired)

/-- The function `get_static_typed_event`. -/
def get_static_typed_event : Object :=
  Object.typed (TypedEvent.ctor_public Signal.XY_RawData CType.xy_data (xy_data.bytes ⟨1, 2⟩))

/-- The function `get_dynamic_event`. -/
def get_dynamic_event (w : World) : Outcome Object :=
  (make_Event Signal.TimerExpired w).andThen deref_event

/-- The function `get_dynamic_typed_event`. -/
def get_dynamic_typed_event (w : World) : Outcome Object :=
  (make_TypedEvent Signal.XY_RawData CType.xy_data (xy_data.bytes ⟨1, 2⟩) w).andThen deref_event

/-- The function `main`. -/
def main (w : World) : Outcome Int :=
  let static_typed_event1 :=
    TypedEvent.ctor_public Signal.ButtonPressed ButtonMask (encode_unsigned 21)
  (make_TypedEvent Signal.ButtonPressed ButtonMask (encode_unsigned 42) w).andThen
  fun dyn_typed_event1 w =>
  (make_TypedEvent Signal.XY_RawData CType.xy_data (xy_data.bytes ⟨1, 2⟩) w).andThen
  fun dyn_typed_event2 w =>
  (make_Event Signal.TimerExpired w).andThen
  fun dyn_event2 w =>
  (make_TypedEvent Signal.HIDPP CType.h20payload
    (h20payload.bytes ⟨0, 0, 0, [0, 1, 2, 3, 4, 5, 6, 7, 8, 9, 10, 11, 12, 13, 14, 15]⟩) w).andThen
  fun dyn_hidpp_event w =>
  let static_hidpp_event :=
    TypedEvent.ctor_public Signal.HIDPP CType.h20payload (h20payload.bytes ⟨1, 2, 3, [2, 2, 2, 2]⟩)
  (print_value get_static_typed_event w).andThen fun _ w =>
  (print_value (Object.typed static_typed_event1) w).andThen fun _ w =>
  (print_value get_static_event w).andThen fun _ w =>
  (get_dynamic_event w).andThen fun e w =>
  (print_value e w).andThen fun _ w =>
  (get_dynamic_typed_event w).andThen fun e w =>
  (print_value e w).andThen fun _ w =>
  let r := get_static_typed_event_generic Signal.ButtonPressed ButtonMask (encode_unsigned 12) w
  (print_value (Object.typed r.1) r.2).andThen fun _ w =>
  let r := get_static_typed_event_generic Signal.ButtonPressed ButtonMask (encode_unsigned 14) w
  (print_value (Object.typed r.1) r.2).andThen fun _ w =>
  (deref_event dyn_typed_event1 w).andThen fun e w =>
  (print_value e w).andThen fun _ w =>
  (deref_event dyn_event2 w).andThen fun e w =>
  (print_value e w).andThen fun _ w =>
  (deref_event dyn_typed_event2 w).andThen fun e w =>
  (print_value e w).andThen fun _ w =>
  (deref_event dyn_hidpp_event w).andThen fun e w =>
  (print_value e w).andThen fun _ w =>
  (print_value (Object.typed static_hidpp_event) w).andThen fun _ w =>
  Outcome.ok 0 w

/-- A program state before `main`: nothing allocated, nothing printed, no static
initialised, and the heap described by `heap`. -/
def World.initial (heap : List Nat) : World :=
  { global_small_pool_manager := { requests := [] }
    global_large_pool_manager := { requests := [] }
    malloc_results := heap
    memory := []
    statics := []
    cout := [] }

/-! ## Definitions used to state the properties -/

/-- The event `make_TypedEvent` builds: signal `EvTag`, pool id from the selector applied to
the payload type, payload `args`. -/
def made_TypedEvent (EvTag : Signal) (EvType : CType) (args : List Nat) : TypedEvent :=
  { toEvent := Event.ctor_protected EvTag (event_pool_selector EvType)
    Sig := EvTag, EvType := EvType, Pool := event_pool_selector EvType, data_ := args }

/-- The tokens `print_value` writes before the payload. -/
def print_value_header (e : Event) : List Tok :=
  [Tok.str "Event pool:", Tok.int e.getPoolId.toInt, Tok.str " signal:",
    Tok.int e.getSignal.toInt, Tok.str " data:"]

/-- An example payload type of 42 bytes, `std::array<uint8_t, 42>`. -/
def array_uint8_42 : CType := ⟨"std::array<uint8_t, 42>", 42, 1⟩

/-- The statement `print_value(event)` executed `n` times in a row. -/
def print_value_repeated (event : Object) : Nat → World → Outcome Unit
  | 0, w => Outcome.ok () w
  | n + 1, w =>
    match print_value event w with
    | Outcome.ok _ w1 => print_value_repeated event n w1
    | Outcome.assert_failed => Outcome.assert_failed
    | Outcome.undefined => Outcome.undefined

/-- The text `out` written `n` times. -/
def repeated_output (out : List Tok) : Nat → List Tok
  | 0 => []
  | n + 1 => out ++ repeated_output out n

/-! ## Auxiliary facts -/

/-- The selector never yields `Static`. -/
theorem event_pool_selector_ne_Static (T : CType) : event_pool_selector T ≠ EventPool.Static := by
  simp only [event_pool_selector]
  split <;> simp

/-- The pointer returned by `get` is the one `malloc` returns. -/
theorem get_fst (self : PoolRef) (blockSize : Nat) (w : World) :
    (MemoryPoolManager.get self blockSize w).1 = (malloc blockSize w).1 := by
  cases self <;> rfl

/-- With a non-empty heap, `malloc` returns its first pointer. -/
theorem malloc_fst_of_cons (size : Nat) (w : World) (p : Nat) (rest : List Nat)
    (hheap : w.malloc_results = p :: rest) : (malloc size w).1 = p := by
  simp [malloc, hheap]

/-- Dereferencing the address just used by placement new gives the new object. -/
theorem deref_placement_new (p : Nat) (o : Object) (w : World) :
    (placement_new p o w).deref p = some o := by
  simp [placement_new, World.deref]

/-- Whenever `get` returns a non-null block, `make_TypedEvent` returns it with the event
constructed in it. -/
theorem make_TypedEvent_of_ne_null (EvTag : Signal) (EvType : CType) (args : List Nat)
    (w : World)
    (h : (MemoryPoolManager.get (get_pool_manager EvType) (sizeof_TypedEvent EvType) w).1
      ≠ nullptr) :
    make_TypedEvent EvTag EvType args w =
      Outcome.ok (MemoryPoolManager.get (get_pool_manager EvType) (sizeof_TypedEvent EvType) w).1
        (placement_new
          (MemoryPoolManager.get (get_pool_manager EvType) (sizeof_TypedEvent EvType) w).1
          (Object.typed (made_TypedEvent EvTag EvType args))
          (MemoryPoolManager.get (get_pool_manager EvType) (sizeof_TypedEvent EvType) w).2) := by
  simp only [make_TypedEvent]
  rw [if_pos h]
  rfl

/-- Whenever `get` returns null, `make_TypedEvent` ends in the failed assertion. -/
theorem make_TypedEvent_of_null (EvTag : Signal) (EvType : CType) (args : List Nat)
    (w : World)
    (h : (MemoryPoolManager.get (get_pool_manager EvType) (sizeof_TypedEvent EvType) w).1
      = nullptr) :
    make_TypedEvent EvTag EvType args w = Outcome.assert_failed := by
  simp only [make_TypedEvent]
  rw [if_neg (not_not.mpr h)]

/-- Whenever `get` returns a non-null block, `make_Event` returns it with the event
constructed in it. -/
theorem make_Event_of_ne_null (sig : Signal) (w : World)
    (h : (MemoryPoolManager.get PoolRef.global_small_pool_manager sizeof_Event w).1 ≠ nullptr) :
    make_Event sig w =
      Outcome.ok (MemoryPoolManager.get PoolRef.global_small_pool_manager sizeof_Event w).1
        (placement_new (MemoryPoolManager.get PoolRef.global_small_pool_manager sizeof_Event w).1
          (Object.event (Event.ctor_private sig EventPool.Small 0))
          (MemoryPoolManager.get PoolRef.global_small_pool_manager sizeof_Event w).2) := by
  simp only [make_Event]
  rw [if_pos h]

/-- Whenever `get` returns null, `make_Event` ends in the failed assertion. -/
theorem make_Event_of_null (sig : Signal) (w : World)
    (h : (MemoryPoolManager.get PoolRef.global_small_pool_manager sizeof_Event w).1 = nullptr) :
    make_Event sig w = Outcome.assert_failed := by
  simp only [make_Event]
  rw [if_neg (not_not.mpr h)]

/-- Rounding up never decreases. -/
theorem le_roundUp (n a : Nat) : n ≤ roundUp n a := by
  unfold roundUp
  split
  · exact Nat.le_refl n
  · rename_i ha
    have h1 := Nat.div_add_mod (n + a - 1) a
    have h2 := Nat.mod_lt (n + a - 1) (Nat.pos_of_ne_zero ha)
    rw [Nat.mul_comm] at h1
    omega

/-- A `TypedEvent` is larger than its base subobject and its payload together. -/
theorem sizeof_Event_add_size_le (T : CType) : sizeof_Event + T.size ≤ sizeof_TypedEvent T := by
  unfold sizeof_TypedEvent
  have h1 := le_roundUp (roundUp sizeof_Event T.align + T.size) (max alignof_Event T.align)
  have h2 := le_roundUp sizeof_Event T.align
  omega

/-- Reading back an `unsigned int` from its object representation. -/
theorem decode_encode_unsigned (v : Nat) (h : v < 4294967296) :
    decode_unsigned (encode_unsigned v) = v := by
  simp only [decode_unsigned, encode_unsigned, List.getD_cons_zero, List.getD_cons_succ]
  omega

/-- Reading the object representation of an `unsigned int` as an `int`: values from 2^31 on
come back lowered by 2^32. -/
theorem decode_int_encode_unsigned (v : Nat) (h : v < 4294967296) :
    decode_int (encode_unsigned v) =
      if v < 2147483648 then (v : Int) else (v : Int) - 4294967296 := by
  simp only [decode_int, decode_encode_unsigned v h]

/-- Reading back an `int` from its object representation. -/
theorem decode_encode_int (v : Int) (h1 : -2147483648 ≤ v) (h2 : v < 2147483648) :
    decode_int (encode_int v) = v := by
  unfold encode_int
  rw [decode_int_encode_unsigned _ (by omega)]
  split <;> omega

/-- The effect of `get` on the two request logs and on the heap. -/
theorem get_effect (self : PoolRef) (size : Nat) (w : World) (p : Nat) (rest : List Nat)
    (hheap : w.malloc_results = p :: rest) :
    (MemoryPoolManager.get self size w).1 = p ∧
    (MemoryPoolManager.get self size w).2.malloc_results = rest ∧
    ((MemoryPoolManager.get self size w).2.pool self).requests = size :: (w.pool self).requests ∧
    (∀ other : PoolRef, other ≠ self →
      (MemoryPoolManager.get self size w).2.pool other = w.pool other) := by
  cases self
  · refine ⟨?_, ?_, ?_, ?_⟩
    · simp [MemoryPoolManager.get, malloc, hheap]
    · simp [MemoryPoolManager.get, malloc, hheap]
    · simp [MemoryPoolManager.get, malloc, hheap, World.pool]
    · intro other h
      cases other
      · exact absurd rfl h
      · simp [MemoryPoolManager.get, malloc, hheap, World.pool]
  · refine ⟨?_, ?_, ?_, ?_⟩
    · simp [MemoryPoolManager.get, malloc, hheap]
    · simp [MemoryPoolManager.get, malloc, hheap]
    · simp [MemoryPoolManager.get, malloc, hheap, World.pool]
    · intro other h
      cases other
      · simp [MemoryPoolManager.get, malloc, hheap, World.pool]
      · exact absurd rfl h

/-- The selector by payload size. -/
theorem event_pool_selector_spec_aux (T : CType) :
    (event_pool_selector T = EventPool.Small ↔ T.size ≤ 42) ∧
    (event_pool_selector T = EventPool.Large ↔ 42 < T.size) := by
  simp only [event_pool_selector]
  by_cases h : T.size ≤ 42
  · simp [h]
  · simp [h]
    omega

/-- Which manager `get_pool_manager` returns, by payload size. -/
theorem get_pool_manager_spec (T : CType) :
    (get_pool_manager T = PoolRef.global_small_pool_manager ↔ T.size ≤ 42) ∧
    (get_pool_manager T = PoolRef.global_large_pool_manager ↔ 42 < T.size) := by
  simp only [get_pool_manager, event_pool_selector]
  by_cases h : T.size ≤ 42
  · simp [h]
  · simp [h]
    omega

/-- What `print_value` writes for an event with signal `ButtonPressed` whose payload was
stored as an `unsigned int`: the payload read as an `int`. -/
theorem print_value_ButtonPressed (t : TypedEvent) (v : Nat) (w : World)
    (hsig : t.getSignal = Signal.ButtonPressed) (hdata : t.getEventData = encode_unsigned v) :
    print_value (Object.typed t) w = Outcome.ok ()
      { w with cout := w.cout ++ print_value_header t.toEvent ++
          [Tok.int (decode_int (encode_unsigned v)), Tok.endl] } := by
  simp only [TypedEvent.getEventData] at hdata
  simp [print_value, Object.base, hsig, static_cast_getEventData, Object.tail, hdata,
    encode_unsigned, CType.int, World.put, print_value_header]

/-- Round trip for `XY_RawData`: the payload is stored and recovered as `xy_data`. -/
theorem print_value_XY_RawData (t : TypedEvent) (d : xy_data) (w : World)
    (hsig : t.getSignal = Signal.XY_RawData) (hdata : t.getEventData = d.bytes)
    (hx : -2147483648 ≤ d.x ∧ d.x < 2147483648) (hy : -2147483648 ≤ d.y ∧ d.y < 2147483648) :
    print_value (Object.typed t) w = Outcome.ok ()
      { w with cout := w.cout ++ print_value_header t.toEvent ++
          [Tok.str "x:", Tok.int d.x, Tok.str " y:", Tok.int d.y, Tok.endl] } := by
  simp only [TypedEvent.getEventData] at hdata
  have h1 : decode_int (encode_int d.x ++ encode_int d.y) = d.x :=
    (show decode_int (encode_int d.x ++ encode_int d.y) = decode_int (encode_int d.x)
      from rfl).trans (decode_encode_int d.x hx.1 hx.2)
  have h2 : decode_int ((encode_int d.x ++ encode_int d.y).drop 4) = d.y :=
    (show decode_int ((encode_int d.x ++ encode_int d.y).drop 4) = decode_int (encode_int d.y)
      from rfl).trans (decode_encode_int d.y hy.1 hy.2)
  have h3 : (encode_int d.x ++ encode_int d.y).take 8 = encode_int d.x ++ encode_int d.y := rfl
  have h4 : (encode_int d.x).length = 4 := rfl
  have h5 : (encode_int d.y).length = 4 := rfl
  simp [print_value, Object.base, hsig, static_cast_getEventData, Object.tail, hdata,
    xy_data.bytes, CType.xy_data, World.put, print_value_header, h3, h1, h2, h4, h5,
    decode_encode_int d.y hy.1 hy.2]

/-- Round trip for `HIDPP`: the payload is stored and recovered as `h20payload`. -/
theorem print_value_HIDPP (t : TypedEvent) (d : h20payload) (w : World)
    (hsig : t.getSignal = Signal.HIDPP) (hdata : t.getEventData = d.bytes)
    (hdev : d.deviceIdx < 256) :
    print_value (Object.typed t) w = Outcome.ok ()
      { w with cout := w.cout ++ print_value_header t.toEvent ++
          [Tok.str "deviceIdx:", Tok.int d.deviceIdx, Tok.endl] } := by
  simp only [TypedEvent.getEventData] at hdata
  simp [print_value, Object.base, hsig, static_cast_getEventData, Object.tail, hdata,
    h20payload.bytes, CType.h20payload, World.put, print_value_header,
    hidpp20_PAYLOAD_LONG_SIZE, Nat.mod_eq_of_lt hdev]

/-! ## Size-class selection -/

/-- C1: for every payload type, hence every payload byte size, the selected pool class is
`Small` exactly when the size is at most 42 and `Large` otherwise; 42 bytes go to `Small`,
43 bytes to `Large`, and the result is never `Static`. -/
theorem event_pool_selector_spec :
    (∀ T : CType,
      (event_pool_selector T = EventPool.Small ↔ T.size ≤ 42) ∧
      (event_pool_selector T = EventPool.Large ↔ 42 < T.size) ∧
      event_pool_selector T ≠ EventPool.Static) ∧
    (∀ (name : String) (align : Nat),
      event_pool_selector ⟨name, 42, align⟩ = EventPool.Small) ∧
    (∀ (name : String) (align : Nat),
      event_pool_selector ⟨name, 43, align⟩ = EventPool.Large) := by
  refine ⟨fun T => ?_, fun _ _ => rfl, fun _ _ => rfl⟩
  simp only [event_pool_selector]
  by_cases h : T.size ≤ 42
  · simp [h]
  · simp [h]
    omega

/-! ## Factory postconditions -/

/-- C2: when the pool serves a non-null block `p`, `make_TypedEvent<EvTag, EvType>(value)`
returns `p`, and the event at `p` has signal `EvTag`, payload `value` and pool id
`event_pool_selector<EvType>()`. -/
theorem make_TypedEvent_postcondition (EvTag : Signal) (EvType : CType) (value : List Nat)
    (w : World) (p : Nat) (rest : List Nat) (hp : p ≠ nullptr)
    (hheap : w.malloc_results = p :: rest) :
    ∃ w1 t, make_TypedEvent EvTag EvType value w = Outcome.ok p w1 ∧
      w1.deref p = some (Object.typed t) ∧
      t.getSignal = EvTag ∧ t.getEventData = value ∧
      t.getPoolId = event_pool_selector EvType := by
  have hget : (MemoryPoolManager.get (get_pool_manager EvType) (sizeof_TypedEvent EvType) w).1
      = p := by
    rw [get_fst, malloc_fst_of_cons _ w p rest hheap]
  have hne : (MemoryPoolManager.get (get_pool_manager EvType) (sizeof_TypedEvent EvType) w).1
      ≠ nullptr := by
    rw [hget]; exact hp
  refine ⟨placement_new p (Object.typed (made_TypedEvent EvTag EvType value))
    (MemoryPoolManager.get (get_pool_manager EvType) (sizeof_TypedEvent EvType) w).2,
    made_TypedEvent EvTag EvType value, ?_, ?_, rfl, rfl, rfl⟩
  · rw [make_TypedEvent_of_ne_null EvTag EvType value w hne, hget]
  · exact deref_placement_new p _ _

/-- Witness for C2: `make_TypedEvent<ButtonPressed, ButtonMask>(42)` gives signal
`ButtonPressed`, origin `Small` and payload 42; the 58-byte `h20payload` gives `Large`. -/
theorem make_TypedEvent_postcondition_witness :
    (∃ w1 t, make_TypedEvent Signal.ButtonPressed ButtonMask (encode_unsigned 42)
        (World.initial [4096]) = Outcome.ok 4096 w1 ∧
      w1.deref 4096 = some (Object.typed t) ∧
      t.getSignal = Signal.ButtonPressed ∧ decode_unsigned t.getEventData = 42 ∧
      t.getPoolId = EventPool.Small) ∧
    (∃ w1 t, make_TypedEvent Signal.HIDPP CType.h20payload
        (h20payload.bytes ⟨0, 0, 0, List.range 16⟩) (World.initial [4096]) = Outcome.ok 4096 w1 ∧
      w1.deref 4096 = some (Object.typed t) ∧
      t.getSignal = Signal.HIDPP ∧
      t.getEventData = h20payload.bytes ⟨0, 0, 0, List.range 16⟩ ∧
      CType.h20payload.size = 58 ∧ t.getPoolId = EventPool.Large) := by
  constructor
  · obtain ⟨w1, t, h1, h2, h3, h4, h5⟩ :=
      make_TypedEvent_postcondition Signal.ButtonPressed ButtonMask (encode_unsigned 42)
        (World.initial [4096]) 4096 [] (by decide) rfl
    exact ⟨w1, t, h1, h2, h3, by rw [h4]; rfl, by rw [h5]; rfl⟩
  · obtain ⟨w1, t, h1, h2, h3, h4, h5⟩ :=
      make_TypedEvent_postcondition Signal.HIDPP CType.h20payload
        (h20payload.bytes ⟨0, 0, 0, List.range 16⟩) (World.initial [4096]) 4096 [] (by decide) rfl
    exact ⟨w1, t, h1, h2, h3, h4, rfl, by rw [h5]; rfl⟩

/-- C3: the public constructors of `Event` and `TypedEvent` stamp `Static` for every signal
and every payload type, and no event returned by `make_Event` or `make_TypedEvent` is
stamped `Static`. -/
theorem origin_static_exactly_on_static_path :
    (∀ sig : Signal, (Event.ctor_public sig).getPoolId = EventPool.Static) ∧
    (∀ (Sig : Signal) (EvType : CType) (data : List Nat),
      (TypedEvent.ctor_public Sig EvType data).getPoolId = EventPool.Static) ∧
    (∀ (sig : Signal) (w : World) (p : Nat) (w1 : World),
      make_Event sig w = Outcome.ok p w1 →
        ∃ e, w1.deref p = some (Object.event e) ∧ e.getPoolId ≠ EventPool.Static) ∧
    (∀ (EvTag : Signal) (EvType : CType) (args : List Nat) (w : World) (p : Nat) (w1 : World),
      make_TypedEvent EvTag EvType args w = Outcome.ok p w1 →
        ∃ t, w1.deref p = some (Object.typed t) ∧ t.getPoolId ≠ EventPool.Static) := by
  refine ⟨fun _ => rfl, fun _ _ _ => rfl, ?_, ?_⟩
  · intro sig w p w1 h
    by_cases hn : (MemoryPoolManager.get PoolRef.global_small_pool_manager sizeof_Event w).1
        = nullptr
    · rw [make_Event_of_null sig w hn] at h
      cases h
    · rw [make_Event_of_ne_null sig w hn] at h
      injection h with hp hw
      subst hp hw
      exact ⟨_, deref_placement_new _ _ _, by simp [Event.getPoolId, Event.ctor_private]⟩
  · intro EvTag EvType args w p w1 h
    by_cases hn :
        (MemoryPoolManager.get (get_pool_manager EvType) (sizeof_TypedEvent EvType) w).1
          = nullptr
    · rw [make_TypedEvent_of_null EvTag EvType args w hn] at h
      cases h
    · rw [make_TypedEvent_of_ne_null EvTag EvType args w hn] at h
      injection h with hp hw
      subst hp hw
      exact ⟨_, deref_placement_new _ _ _, event_pool_selector_ne_Static EvType⟩

/-- Witness for C3: a static `TypedEvent` over the 58-byte `h20payload` is stamped `Static`,
while the events returned by the two factories are stamped `Small` and `Large`. -/
theorem origin_static_exactly_on_static_path_witness :
    (TypedEvent.ctor_public Signal.HIDPP CType.h20payload
      (h20payload.bytes ⟨1, 2, 3, [2, 2, 2, 2]⟩)).getPoolId = EventPool.Static ∧
    (∃ w1 e, make_Event Signal.TimerExpired (World.initial [4096]) = Outcome.ok 4096 w1 ∧
      w1.deref 4096 = some (Object.event e) ∧ e.getPoolId = EventPool.Small) ∧
    (∃ w1 t, make_TypedEvent Signal.HIDPP CType.h20payload
        (h20payload.bytes ⟨1, 2, 3, [2, 2, 2, 2]⟩) (World.initial [4096]) = Outcome.ok 4096 w1 ∧
      w1.deref 4096 = some (Object.typed t) ∧ t.getPoolId = EventPool.Large) :=
  ⟨origin_static_exactly_on_static_path.2.1 _ _ _, ⟨_, _, rfl, rfl, rfl⟩, ⟨_, _, rfl, rfl, rfl⟩⟩

/-! ## Recovery of the `ButtonPressed` payload -/

/-- C4: the round trip fails for `ButtonPressed`. The event is built with the `ButtonMask`
4294967295, on the static and on the factory path; `print_value` casts to
`TypedEvent<ButtonPressed, int>` and prints -1. -/
theorem print_value_ButtonPressed_recovers_int :
    decode_unsigned (TypedEvent.ctor_public Signal.ButtonPressed ButtonMask
      (encode_unsigned 4294967295)).getEventData = 4294967295 ∧
    (∃ w1, print_value (Object.typed (TypedEvent.ctor_public Signal.ButtonPressed ButtonMask
        (encode_unsigned 4294967295))) (World.initial []) = Outcome.ok () w1 ∧
      w1.cout = [Tok.str "Event pool:", Tok.int 0, Tok.str " signal:", Tok.int 1,
        Tok.str " data:", Tok.int (-1), Tok.endl]) ∧
    (∃ w1 o w2, make_TypedEvent Signal.ButtonPressed ButtonMask (encode_unsigned 4294967295)
        (World.initial [4096]) = Outcome.ok 4096 w1 ∧
      w1.deref 4096 = some o ∧ print_value o w1 = Outcome.ok () w2 ∧
      w2.cout = [Tok.str "Event pool:", Tok.int 1, Tok.str " signal:", Tok.int 1,
        Tok.str " data:", Tok.int (-1), Tok.endl]) :=
  ⟨rfl, ⟨_, rfl, rfl⟩, ⟨_, _, _, rfl, rfl, rfl, rfl⟩⟩

/-! ## Pools and origins -/

/-- C5: when the heap serves a non-null block, `make_TypedEvent` calls `get` once, on the
small pool exactly when the returned event is stamped `Small` and on the large pool exactly
when it is stamped `Large`, and leaves the other pool untouched; `make_Event` calls `get`
once on the small pool and stamps `Small`. -/
theorem factory_origin_matches_pool (EvTag sig : Signal) (EvType : CType) (args : List Nat)
    (w : World) (p : Nat) (rest : List Nat) (hp : p ≠ nullptr)
    (hheap : w.malloc_results = p :: rest) :
    (∃ w1 t, make_TypedEvent EvTag EvType args w = Outcome.ok p w1 ∧
      w1.deref p = some (Object.typed t) ∧
      w1.malloc_results = rest ∧
      (get_pool_manager EvType = PoolRef.global_small_pool_manager ↔
        t.getPoolId = EventPool.Small) ∧
      (get_pool_manager EvType = PoolRef.global_large_pool_manager ↔
        t.getPoolId = EventPool.Large) ∧
      (t.getPoolId = EventPool.Small ∧
          w1.global_small_pool_manager.requests =
            sizeof_TypedEvent EvType :: w.global_small_pool_manager.requests ∧
          w1.global_large_pool_manager = w.global_large_pool_manager ∨
        t.getPoolId = EventPool.Large ∧
          w1.global_large_pool_manager.requests =
            sizeof_TypedEvent EvType :: w.global_large_pool_manager.requests ∧
          w1.global_small_pool_manager = w.global_small_pool_manager)) ∧
    (∃ w1 e, make_Event sig w = Outcome.ok p w1 ∧
      w1.deref p = some (Object.event e) ∧
      w1.malloc_results = rest ∧
      e.getPoolId = EventPool.Small ∧
      w1.global_small_pool_manager.requests =
        sizeof_Event :: w.global_small_pool_manager.requests ∧
      w1.global_large_pool_manager = w.global_large_pool_manager) := by
  constructor
  · obtain ⟨h1, h2, h3, h4⟩ :=
      get_effect (get_pool_manager EvType) (sizeof_TypedEvent EvType) w p rest hheap
    have hne : (MemoryPoolManager.get (get_pool_manager EvType) (sizeof_TypedEvent EvType) w).1
        ≠ nullptr := by
      rw [h1]; exact hp
    refine ⟨placement_new p (Object.typed (made_TypedEvent EvTag EvType args))
      (MemoryPoolManager.get (get_pool_manager EvType) (sizeof_TypedEvent EvType) w).2,
      made_TypedEvent EvTag EvType args, ?_, deref_placement_new p _ _, h2, ?_, ?_, ?_⟩
    · rw [make_TypedEvent_of_ne_null EvTag EvType args w hne, h1]
    · show get_pool_manager EvType = _ ↔ event_pool_selector EvType = _
      simp only [get_pool_manager]
      split <;> simp_all
    · show get_pool_manager EvType = _ ↔ event_pool_selector EvType = _
      simp only [get_pool_manager, event_pool_selector]
      split <;> simp_all
    · show (event_pool_selector EvType = _ ∧ _) ∨ (event_pool_selector EvType = _ ∧ _)
      by_cases hs : EvType.size ≤ 42
      · have hm : get_pool_manager EvType = PoolRef.global_small_pool_manager :=
          (get_pool_manager_spec EvType).1.2 hs
        rw [hm] at h3 h4 ⊢
        exact Or.inl ⟨(event_pool_selector_spec_aux EvType).1.2 hs, h3,
          h4 PoolRef.global_large_pool_manager (by decide)⟩
      · have hl : 42 < EvType.size := by omega
        have hm : get_pool_manager EvType = PoolRef.global_large_pool_manager :=
          (get_pool_manager_spec EvType).2.2 hl
        rw [hm] at h3 h4 ⊢
        exact Or.inr ⟨(event_pool_selector_spec_aux EvType).2.2 hl, h3,
          h4 PoolRef.global_small_pool_manager (by decide)⟩
  · obtain ⟨h1, h2, h3, h4⟩ :=
      get_effect PoolRef.global_small_pool_manager sizeof_Event w p rest hheap
    have hne : (MemoryPoolManager.get PoolRef.global_small_pool_manager sizeof_Event w).1
        ≠ nullptr := by
      rw [h1]; exact hp
    refine ⟨placement_new p (Object.event (Event.ctor_private sig EventPool.Small 0))
      (MemoryPoolManager.get PoolRef.global_small_pool_manager sizeof_Event w).2,
      Event.ctor_private sig EventPool.Small 0, ?_, deref_placement_new p _ _, h2, rfl, h3,
      h4 PoolRef.global_large_pool_manager (by decide)⟩
    rw [make_Event_of_ne_null sig w hne, h1]

/-- Witness for C5: in a fresh program with one free block at 4096, the `ButtonMask` event
is acquired from the small pool, the `h20payload` event from the large pool, and the other
pool sees no request. -/
theorem factory_origin_matches_pool_witness :
    (∃ w1 t, make_TypedEvent Signal.ButtonPressed ButtonMask (encode_unsigned 42)
        (World.initial [4096]) = Outcome.ok 4096 w1 ∧
      w1.deref 4096 = some (Object.typed t) ∧ t.getPoolId = EventPool.Small ∧
      w1.global_small_pool_manager.requests = [24] ∧
      w1.global_large_pool_manager.requests = []) ∧
    (∃ w1 t, make_TypedEvent Signal.HIDPP CType.h20payload
        (h20payload.bytes ⟨0, 0, 0, List.range 16⟩) (World.initial [4096]) = Outcome.ok 4096 w1 ∧
      w1.deref 4096 = some (Object.typed t) ∧ t.getPoolId = EventPool.Large ∧
      w1.global_large_pool_manager.requests = [80] ∧
      w1.global_small_pool_manager.requests = []) ∧
    (∃ w1 e, make_Event Signal.TimerExpired (World.initial [4096]) = Outcome.ok 4096 w1 ∧
      w1.deref 4096 = some (Object.event e) ∧ e.getPoolId = EventPool.Small ∧
      w1.global_small_pool_manager.requests = [16] ∧
      w1.global_large_pool_manager.requests = []) := by
  refine ⟨?_, ?_, ?_⟩
  · obtain ⟨⟨w1, t, h1, h2, -, h4, -, h6⟩, -⟩ :=
      factory_origin_matches_pool Signal.ButtonPressed Signal.TimerExpired ButtonMask
        (encode_unsigned 42) (World.initial [4096]) 4096 [] (by decide) rfl
    have hs : t.getPoolId = EventPool.Small := h4.1 rfl
    rcases h6 with ⟨-, h7, h8⟩ | ⟨h7, -, -⟩
    · exact ⟨w1, t, h1, h2, hs, h7, by rw [h8]; rfl⟩
    · rw [hs] at h7
      cases h7
  · obtain ⟨⟨w1, t, h1, h2, -, -, h5, h6⟩, -⟩ :=
      factory_origin_matches_pool Signal.HIDPP Signal.TimerExpired CType.h20payload
        (h20payload.bytes ⟨0, 0, 0, List.range 16⟩) (World.initial [4096]) 4096 []
        (by decide) rfl
    have hs : t.getPoolId = EventPool.Large := h5.1 rfl
    rcases h6 with ⟨h7, -, -⟩ | ⟨-, h7, h8⟩
    · rw [hs] at h7
      cases h7
    · exact ⟨w1, t, h1, h2, hs, h7, by rw [h8]; rfl⟩
  · obtain ⟨-, w1, e, h1, h2, -, h4, h5, h6⟩ :=
      factory_origin_matches_pool Signal.ButtonPressed Signal.TimerExpired ButtonMask
        (encode_unsigned 42) (World.initial [4096]) 4096 [] (by decide) rfl
    exact ⟨w1, e, h1, h2, h4, h5, by rw [h6]; rfl⟩

/-! ## Block size and pool class -/

/-- Counterexample for C6: for a 42-byte payload the selection is made on the payload size
and picks the small pool, while the block requested from that pool has 64 bytes, a size
the selection would send to `Large`. -/
theorem small_pool_block_exceeds_threshold :
    ∃ w1 t, make_TypedEvent Signal.HIDPP array_uint8_42 (List.replicate 42 0)
        (World.initial [4096]) = Outcome.ok 4096 w1 ∧
      w1.deref 4096 = some (Object.typed t) ∧
      get_pool_manager array_uint8_42 = PoolRef.global_small_pool_manager ∧
      t.getPoolId = EventPool.Small ∧
      w1.global_small_pool_manager.requests = [sizeof_TypedEvent array_uint8_42] ∧
      w1.global_large_pool_manager.requests = [] ∧
      sizeof_TypedEvent array_uint8_42 = 64 ∧
      ¬ sizeof_TypedEvent array_uint8_42 ≤ 42 ∧
      event_pool_selector ⟨"TypedEvent<HIDPP, std::array<uint8_t, 42>>",
        sizeof_TypedEvent array_uint8_42, 8⟩ = EventPool.Large :=
  ⟨_, _, rfl, rfl, rfl, rfl, rfl, rfl, rfl, by decide, rfl⟩

/-- C6, amended: `make_TypedEvent` selects the pool class, the pool manager and the stamped
origin from the size of the payload type, and passes the size of the whole `TypedEvent` to
`get`. The payload size is at most 42 exactly when the block is requested from the small
pool and above 42 exactly when it is requested from the large pool; a block requested from
the large pool is larger than 42 bytes. -/
theorem make_TypedEvent_pool_class_from_payload_size (EvTag : Signal) (EvType : CType)
    (args : List Nat) (w : World) (p : Nat) (rest : List Nat) (hp : p ≠ nullptr)
    (hheap : w.malloc_results = p :: rest) :
    ∃ w1 t, make_TypedEvent EvTag EvType args w = Outcome.ok p w1 ∧
      w1.deref p = some (Object.typed t) ∧
      t.getPoolId = event_pool_selector EvType ∧
      (get_pool_manager EvType = PoolRef.global_small_pool_manager ↔ EvType.size ≤ 42) ∧
      (get_pool_manager EvType = PoolRef.global_large_pool_manager ↔ 42 < EvType.size) ∧
      (w1.pool (get_pool_manager EvType)).requests =
        sizeof_TypedEvent EvType :: (w.pool (get_pool_manager EvType)).requests ∧
      (∀ other : PoolRef, other ≠ get_pool_manager EvType → w1.pool other = w.pool other) ∧
      sizeof_Event + EvType.size ≤ sizeof_TypedEvent EvType ∧
      (get_pool_manager EvType = PoolRef.global_large_pool_manager →
        42 < sizeof_TypedEvent EvType) := by
  obtain ⟨h1, -, h3, h4⟩ :=
    get_effect (get_pool_manager EvType) (sizeof_TypedEvent EvType) w p rest hheap
  have hne : (MemoryPoolManager.get (get_pool_manager EvType) (sizeof_TypedEvent EvType) w).1
      ≠ nullptr := by
    rw [h1]; exact hp
  refine ⟨placement_new p (Object.typed (made_TypedEvent EvTag EvType args))
    (MemoryPoolManager.get (get_pool_manager EvType) (sizeof_TypedEvent EvType) w).2,
    made_TypedEvent EvTag EvType args, ?_, deref_placement_new p _ _, rfl,
    (get_pool_manager_spec EvType).1, (get_pool_manager_spec EvType).2, h3, h4,
    sizeof_Event_add_size_le EvType, ?_⟩
  · rw [make_TypedEvent_of_ne_null EvTag EvType args w hne, h1]
  · intro hl
    have h5 := (get_pool_manager_spec EvType).2.1 hl
    have h6 := sizeof_Event_add_size_le EvType
    omega

/-- Witness for C6, amended: the 58-byte `h20payload` is requested from the large pool in
a block of 80 bytes. -/
theorem make_TypedEvent_pool_class_from_payload_size_witness :
    ∃ w1 t, make_TypedEvent Signal.HIDPP CType.h20payload
        (h20payload.bytes ⟨0, 0, 0, List.range 16⟩) (World.initial [4096]) = Outcome.ok 4096 w1 ∧
      w1.deref 4096 = some (Object.typed t) ∧
      t.getPoolId = EventPool.Large ∧
      w1.global_large_pool_manager.requests = [80] ∧
      w1.global_small_pool_manager.requests = [] := by
  obtain ⟨w1, t, h1, h2, h3, -, -, h6, h7, -, -⟩ :=
    make_TypedEvent_pool_class_from_payload_size Signal.HIDPP CType.h20payload
      (h20payload.bytes ⟨0, 0, 0, List.range 16⟩) (World.initial [4096]) 4096 []
      (by decide) rfl
  have h8 := h7 PoolRef.global_small_pool_manager (by decide)
  exact ⟨w1, t, h1, h2, h3, h6, by
    show (w1.pool PoolRef.global_small_pool_manager).requests = []
    rw [h8]; rfl⟩

/-! ## Unknown signals -/

/-- C7: for a signal without a payload mapping (`Invalid`, `TimerExpired`), a base `Event`
from the public constructor or from `make_Event` is printed by the default case as "N/A";
the result does not depend on what follows the `Event` subobject, so nothing is
reinterpreted and nothing is undefined; and only those two signals reach the default case. -/
theorem print_value_unknown_signal (sig : Signal) (w : World) (p : Nat) (rest : List Nat)
    (hsig : sig = Signal.Invalid ∨ sig = Signal.TimerExpired) (hp : p ≠ nullptr)
    (hheap : w.malloc_results = p :: rest) :
    print_value (Object.event (Event.ctor_public sig)) w = Outcome.ok ()
      { w with cout := w.cout ++ print_value_header (Event.ctor_public sig) ++
          [Tok.str "N/A", Tok.endl] } ∧
    (∃ w1 e, make_Event sig w = Outcome.ok p w1 ∧ w1.deref p = some (Object.event e) ∧
      e.getSignal = sig ∧
      print_value (Object.event e) w1 = Outcome.ok ()
        { w1 with cout := w1.cout ++ print_value_header e ++ [Tok.str "N/A", Tok.endl] }) ∧
    (∀ o : Object, o.base.getSignal = sig →
      print_value o w = Outcome.ok ()
        { w with cout := w.cout ++ print_value_header o.base ++ [Tok.str "N/A", Tok.endl] }) ∧
    (∀ (o : Object) (w0 w1 : World), print_value o w0 = Outcome.ok () w1 →
      w1.cout = w0.cout ++ print_value_header o.base ++ [Tok.str "N/A", Tok.endl] →
      o.base.getSignal = Signal.Invalid ∨ o.base.getSignal = Signal.TimerExpired) := by
  have hdefault : ∀ (o : Object) (w0 : World), o.base.getSignal = sig →
      print_value o w0 = Outcome.ok ()
        { w0 with cout := w0.cout ++ print_value_header o.base ++
            [Tok.str "N/A", Tok.endl] } := by
    intro o w0 ho
    rcases hsig with h | h <;>
      simp [print_value, ho, h, World.put, print_value_header]
  refine ⟨hdefault _ w rfl, ?_, fun o ho => hdefault o w ho, ?_⟩
  · obtain ⟨h1, -, -, -⟩ :=
      get_effect PoolRef.global_small_pool_manager sizeof_Event w p rest hheap
    have hne : (MemoryPoolManager.get PoolRef.global_small_pool_manager sizeof_Event w).1
        ≠ nullptr := by
      rw [h1]; exact hp
    refine ⟨placement_new p (Object.event (Event.ctor_private sig EventPool.Small 0))
      (MemoryPoolManager.get PoolRef.global_small_pool_manager sizeof_Event w).2,
      Event.ctor_private sig EventPool.Small 0, ?_, deref_placement_new p _ _, rfl,
      hdefault _ _ rfl⟩
    rw [make_Event_of_ne_null sig w hne, h1]
  · intro o w0 w1 hrun hout
    cases hs : o.base.getSignal
    · exact Or.inl rfl
    · exfalso
      simp only [print_value, hs] at hrun
      split at hrun
      · injection hrun with _ hw
        subst hw
        simp [World.put, print_value_header] at hout
      · cases hrun
    · exact Or.inr rfl
    · exfalso
      simp only [print_value, hs] at hrun
      split at hrun
      · injection hrun with _ hw
        subst hw
        simp [World.put, print_value_header] at hout
      · cases hrun
    · exfalso
      simp only [print_value, hs] at hrun
      split at hrun
      · injection hrun with _ hw
        subst hw
        simp [World.put, print_value_header] at hout
      · cases hrun

/-- Witness for C7: `make_Event(TimerExpired)` is printed as "N/A". -/
theorem print_value_unknown_signal_witness :
    ∃ w1 e w2, make_Event Signal.TimerExpired (World.initial [4096]) = Outcome.ok 4096 w1 ∧
      w1.deref 4096 = some (Object.event e) ∧
      print_value (Object.event e) w1 = Outcome.ok () w2 ∧
      w2.cout = [Tok.str "Event pool:", Tok.int 1, Tok.str " signal:", Tok.int 2,
        Tok.str " data:", Tok.str "N/A", Tok.endl] := by
  obtain ⟨-, ⟨w1, e, h1, h2, h3, h4⟩, -, -⟩ :=
    print_value_unknown_signal Signal.TimerExpired (World.initial [4096]) 4096 []
      (Or.inr rfl) (by decide) rfl
  refine ⟨w1, e, _, h1, h2, h4, ?_⟩
  have hw : w1 = placement_new 4096 (Object.event (Event.ctor_private Signal.TimerExpired
      EventPool.Small 0))
      (MemoryPoolManager.get PoolRef.global_small_pool_manager sizeof_Event
        (World.initial [4096])).2 := by
    have h5 : make_Event Signal.TimerExpired (World.initial [4096]) = Outcome.ok 4096
        (placement_new 4096 (Object.event (Event.ctor_private Signal.TimerExpired
          EventPool.Small 0))
          (MemoryPoolManager.get PoolRef.global_small_pool_manager sizeof_Event
            (World.initial [4096])).2) := rfl
    rw [h1] at h5
    injection h5
  subst hw
  have he : e = Event.ctor_private Signal.TimerExpired EventPool.Small 0 := by
    rw [deref_placement_new] at h2
    injection h2 with h2
    injection h2 with h2
    exact h2.symm
  subst he
  rfl

/-! ## Allocation failure -/

/-- Counterexample for C8: with an exhausted heap `get` returns null, and neither factory
returns to its caller: the program ends in the failed assertion. -/
theorem factories_abort_on_allocation_failure :
    (MemoryPoolManager.get PoolRef.global_small_pool_manager sizeof_Event
      (World.initial [])).1 = nullptr ∧
    make_Event Signal.TimerExpired (World.initial []) = Outcome.assert_failed ∧
    (¬ ∃ r w1, make_Event Signal.TimerExpired (World.initial []) = Outcome.ok r w1) ∧
    make_TypedEvent Signal.ButtonPressed ButtonMask (encode_unsigned 42) (World.initial [])
      = Outcome.assert_failed ∧
    (¬ ∃ r w1, make_TypedEvent Signal.ButtonPressed ButtonMask (encode_unsigned 42)
      (World.initial []) = Outcome.ok r w1) := by
  refine ⟨rfl, rfl, ?_, rfl, ?_⟩
  · rintro ⟨r, w1, h⟩
    have h2 : make_Event Signal.TimerExpired (World.initial []) = Outcome.assert_failed := rfl
    rw [h2] at h
    cases h
  · rintro ⟨r, w1, h⟩
    have h2 : make_TypedEvent Signal.ButtonPressed ButtonMask (encode_unsigned 42)
        (World.initial []) = Outcome.assert_failed := rfl
    rw [h2] at h
    cases h

/-- C8, amended: whenever `get` returns null, `make_Event` and `make_TypedEvent` end the
program in the failed assertion, so no event is constructed or returned; and every event a
factory returns was constructed in the non-null block that `get` returned. -/
theorem factory_allocation_failure (sig EvTag : Signal) (EvType : CType) (args : List Nat)
    (w : World) :
    ((MemoryPoolManager.get PoolRef.global_small_pool_manager sizeof_Event w).1 = nullptr →
      make_Event sig w = Outcome.assert_failed) ∧
    ((MemoryPoolManager.get (get_pool_manager EvType) (sizeof_TypedEvent EvType) w).1 = nullptr →
      make_TypedEvent EvTag EvType args w = Outcome.assert_failed) ∧
    (∀ (p : Nat) (w1 : World), make_Event sig w = Outcome.ok p w1 →
      p ≠ nullptr ∧
      p = (MemoryPoolManager.get PoolRef.global_small_pool_manager sizeof_Event w).1 ∧
      ∃ e, w1.deref p = some (Object.event e)) ∧
    (∀ (p : Nat) (w1 : World), make_TypedEvent EvTag EvType args w = Outcome.ok p w1 →
      p ≠ nullptr ∧
      p = (MemoryPoolManager.get (get_pool_manager EvType) (sizeof_TypedEvent EvType) w).1 ∧
      ∃ t, w1.deref p = some (Object.typed t)) := by
  refine ⟨make_Event_of_null sig w, make_TypedEvent_of_null EvTag EvType args w, ?_, ?_⟩
  · intro p w1 h
    by_cases hn : (MemoryPoolManager.get PoolRef.global_small_pool_manager sizeof_Event w).1
        = nullptr
    · rw [make_Event_of_null sig w hn] at h
      cases h
    · rw [make_Event_of_ne_null sig w hn] at h
      injection h with h1 h2
      subst h1 h2
      exact ⟨hn, rfl, _, deref_placement_new _ _ _⟩
  · intro p w1 h
    by_cases hn :
        (MemoryPoolManager.get (get_pool_manager EvType) (sizeof_TypedEvent EvType) w).1
          = nullptr
    · rw [make_TypedEvent_of_null EvTag EvType args w hn] at h
      cases h
    · rw [make_TypedEvent_of_ne_null EvTag EvType args w hn] at h
      injection h with h1 h2
      subst h1 h2
      exact ⟨hn, rfl, _, deref_placement_new _ _ _⟩

/-- Witness for C8, amended: a heap whose next result is null makes both factories fail the
assertion, and a heap with a free block at 4096 makes both return 4096. -/
theorem factory_allocation_failure_witness :
    make_Event Signal.TimerExpired (World.initial [0, 4096]) = Outcome.assert_failed ∧
    make_TypedEvent Signal.XY_RawData CType.xy_data (xy_data.bytes ⟨1, 2⟩)
      (World.initial [0, 4096]) = Outcome.assert_failed ∧
    (∃ w1, make_Event Signal.TimerExpired (World.initial [4096]) = Outcome.ok 4096 w1) ∧
    (∃ w1, make_TypedEvent Signal.XY_RawData CType.xy_data (xy_data.bytes ⟨1, 2⟩)
      (World.initial [4096]) = Outcome.ok 4096 w1) :=
  ⟨(factory_allocation_failure Signal.TimerExpired Signal.XY_RawData CType.xy_data
      (xy_data.bytes ⟨1, 2⟩) (World.initial [0, 4096])).1 rfl,
   (factory_allocation_failure Signal.TimerExpired Signal.XY_RawData CType.xy_data
      (xy_data.bytes ⟨1, 2⟩) (World.initial [0, 4096])).2.1 rfl,
   ⟨_, rfl⟩, ⟨_, rfl⟩⟩

/-! ## Immutability -/

/-- What `print_value` does depends on the event only: either it is undefined in every
state, or it appends one fixed text and changes nothing else. -/
theorem print_value_frame (event : Object) :
    (∀ w : World, print_value event w = Outcome.undefined) ∨
    (∃ out : List Tok, ∀ w : World,
      print_value event w = Outcome.ok () { w with cout := w.cout ++ out }) := by
  cases hs : event.base.getSignal
  · exact Or.inr ⟨print_value_header event.base ++ [Tok.str "N/A", Tok.endl], fun w => by
      simp [print_value, hs, World.put, print_value_header]⟩
  · cases hd : static_cast_getEventData CType.int event
    · exact Or.inl fun w => by simp [print_value, hs, hd]
    · rename_i e
      exact Or.inr ⟨print_value_header event.base ++ [Tok.int (decode_int e), Tok.endl],
        fun w => by simp [print_value, hs, hd, World.put, print_value_header]⟩
  · exact Or.inr ⟨print_value_header event.base ++ [Tok.str "N/A", Tok.endl], fun w => by
      simp [print_value, hs, World.put, print_value_header]⟩
  · cases hd : static_cast_getEventData CType.xy_data event
    · exact Or.inl fun w => by simp [print_value, hs, hd]
    · rename_i e
      exact Or.inr ⟨print_value_header event.base ++ [Tok.str "x:", Tok.int (decode_int e),
        Tok.str " y:", Tok.int (decode_int (e.drop 4)), Tok.endl],
        fun w => by simp [print_value, hs, hd, World.put, print_value_header]⟩
  · cases hd : static_cast_getEventData CType.h20payload event
    · exact Or.inl fun w => by simp [print_value, hs, hd]
    · rename_i e
      exact Or.inr ⟨print_value_header event.base ++ [Tok.str "deviceIdx:",
        Tok.int (e.getD 0 0), Tok.endl],
        fun w => by simp [print_value, hs, hd, World.put, print_value_header]⟩

/-- Repeating a call that appends `out` and changes nothing else appends `out` each time. -/
theorem print_value_repeated_of_frame (event : Object) (out : List Tok)
    (h : ∀ w : World, print_value event w = Outcome.ok () { w with cout := w.cout ++ out })
    (n : Nat) (w : World) :
    print_value_repeated event n w =
      Outcome.ok () { w with cout := w.cout ++ repeated_output out n } := by
  induction n generalizing w with
  | zero => simp [print_value_repeated, repeated_output]
  | succ n ih =>
    simp only [print_value_repeated, h w, ih, repeated_output, List.append_assoc]

/-- C9: `print_value` changes nothing but `std::cout`: the events in pool memory, the static
events, the pools and the heap are as before, so the accessors return the same signal,
origin and payload afterwards; and any number of repeated calls on the same event write
the same text as the first call. -/
theorem print_value_leaves_events_unchanged (event : Object) (w : World) :
    (∀ w1 : World, print_value event w = Outcome.ok () w1 →
      w1.memory = w.memory ∧ w1.statics = w.statics ∧
      w1.global_small_pool_manager = w.global_small_pool_manager ∧
      w1.global_large_pool_manager = w.global_large_pool_manager ∧
      w1.malloc_results = w.malloc_results ∧
      (∀ p : Nat, w1.deref p = w.deref p) ∧
      ∃ out : List Tok, w1.cout = w.cout ++ out ∧
        ∀ n : Nat, print_value_repeated event n w =
          Outcome.ok () { w with cout := w.cout ++ repeated_output out n }) ∧
    (print_value event w = Outcome.undefined →
      ∀ w2 : World, print_value event w2 = Outcome.undefined) ∧
    print_value event w ≠ Outcome.assert_failed := by
  rcases print_value_frame event with hu | ⟨out, hout⟩
  · refine ⟨?_, fun _ => hu, ?_⟩
    · intro w1 h
      rw [hu w] at h
      cases h
    · rw [hu w]
      intro h
      cases h
  · refine ⟨?_, ?_, ?_⟩
    · intro w1 h
      rw [hout w] at h
      injection h with _ h
      subst h
      exact ⟨rfl, rfl, rfl, rfl, rfl, fun _ => rfl, out, rfl,
        fun n => print_value_repeated_of_frame event out hout n w⟩
    · intro h
      rw [hout w] at h
      cases h
    · rw [hout w]
      intro h
      cases h

/-- Witness for C9: printing the static `ButtonMask` event 21 changes nothing but
`std::cout`, and three calls in a row write the text of the first call three times. -/
theorem print_value_leaves_events_unchanged_witness :
    ∃ w1, print_value (Object.typed (TypedEvent.ctor_public Signal.ButtonPressed ButtonMask
        (encode_unsigned 21))) (World.initial [4096]) = Outcome.ok () w1 ∧
      w1.memory = [] ∧ w1.statics = [] ∧ w1.malloc_results = [4096] ∧
      ∃ out, w1.cout = out ∧
        out = [Tok.str "Event pool:", Tok.int 0, Tok.str " signal:", Tok.int 1,
          Tok.str " data:", Tok.int 21, Tok.endl] ∧
        print_value_repeated (Object.typed (TypedEvent.ctor_public Signal.ButtonPressed
          ButtonMask (encode_unsigned 21))) 3 (World.initial [4096]) =
          Outcome.ok () { World.initial [4096] with cout := repeated_output out 3 } := by
  obtain ⟨h1, h2, -, -, h5, -, out, h7, h8⟩ :=
    (print_value_leaves_events_unchanged (Object.typed (TypedEvent.ctor_public
      Signal.ButtonPressed ButtonMask (encode_unsigned 21))) (World.initial [4096])).1 _ rfl
  refine ⟨_, rfl, h1, h2, h5, out, ?_, ?_, ?_⟩
  · rw [h7]
    rfl
  · have h9 : [Tok.str "Event pool:", Tok.int 0, Tok.str " signal:", Tok.int 1,
        Tok.str " data:", Tok.int 21, Tok.endl] = [] ++ out := h7
    rw [h9]
    rfl
  · have h9 := h8 3
    rw [h9]
    rfl

/-! ## Function-local statics -/

/-- Once the static of an instantiation is initialised, a call returns it and changes
nothing. -/
theorem get_static_typed_event_generic_of_initialised (sig : Signal) (T : CType)
    (data : List Nat) (w : World) (e : TypedEvent) (h : w.find_static sig T = some e) :
    get_static_typed_event_generic sig T data w = (e, w) := by
  simp only [get_static_typed_event_generic, h]

/-- Once the static of an instantiation is initialised, every later call returns it. -/
theorem get_static_typed_event_generic_calls_of_initialised (sig : Signal) (T : CType)
    (ds : List (List Nat)) (w : World) (e : TypedEvent) (h : w.find_static sig T = some e) :
    get_static_typed_event_generic_calls sig T ds w = (List.replicate ds.length e, w) := by
  induction ds with
  | nil => rfl
  | cons d ds ih =>
    simp only [get_static_typed_event_generic_calls,
      get_static_typed_event_generic_of_initialised sig T d w e h, ih, List.length_cons,
      List.replicate_succ]

/-- C10: starting where the static of `get_static_typed_event_generic<sig, T>` is not yet
initialised, every call of a sequence of calls returns the same event: the one built by the
public constructor from the argument `d0` of the first call, with payload `d0`, signal `sig`
and origin `Static`; the arguments `ds` of the later calls are ignored. -/
theorem get_static_typed_event_generic_first_call_wins (sig : Signal) (T : CType)
    (d0 : List Nat) (ds : List (List Nat)) (w : World) (hfresh : w.find_static sig T = none) :
    (get_static_typed_event_generic_calls sig T (d0 :: ds) w).1 =
      List.replicate (ds.length + 1) (TypedEvent.ctor_public sig T d0) ∧
    (∀ e ∈ (get_static_typed_event_generic_calls sig T (d0 :: ds) w).1,
      e.getEventData = d0 ∧ e.getSignal = sig ∧ e.getPoolId = EventPool.Static) ∧
    (get_static_typed_event_generic_calls sig T (d0 :: ds) w).2.find_static sig T =
      some (TypedEvent.ctor_public sig T d0) := by
  have h1 : get_static_typed_event_generic sig T d0 w =
      (TypedEvent.ctor_public sig T d0,
        { w with statics := ((sig, T), TypedEvent.ctor_public sig T d0) :: w.statics }) := by
    simp only [get_static_typed_event_generic, hfresh]
  have h2 : World.find_static
      { w with statics := ((sig, T), TypedEvent.ctor_public sig T d0) :: w.statics } sig T =
      some (TypedEvent.ctor_public sig T d0) := by
    simp [World.find_static]
  have h3 : get_static_typed_event_generic_calls sig T (d0 :: ds) w =
      (List.replicate (ds.length + 1) (TypedEvent.ctor_public sig T d0),
        { w with statics := ((sig, T), TypedEvent.ctor_public sig T d0) :: w.statics }) := by
    simp only [get_static_typed_event_generic_calls, h1,
      get_static_typed_event_generic_calls_of_initialised sig T ds _ _ h2, List.replicate_succ]
  rw [h3]
  refine ⟨rfl, ?_, h2⟩
  intro e he
  rw [List.eq_of_mem_replicate he]
  exact ⟨rfl, rfl, rfl⟩

/-- Witness for C10: as in `main`, the call with `(ButtonMask)12` followed by the call with
`(ButtonMask)14` returns twice the event with payload 12, signal `ButtonPressed` and origin
`Static`. -/
theorem get_static_typed_event_generic_first_call_wins_witness :
    (get_static_typed_event_generic_calls Signal.ButtonPressed ButtonMask
      [encode_unsigned 12, encode_unsigned 14] (World.initial [])).1 =
      [TypedEvent.ctor_public Signal.ButtonPressed ButtonMask (encode_unsigned 12),
       TypedEvent.ctor_public Signal.ButtonPressed ButtonMask (encode_unsigned 12)] ∧
    (∀ e ∈ (get_static_typed_event_generic_calls Signal.ButtonPressed ButtonMask
      [encode_unsigned 12, encode_unsigned 14] (World.initial [])).1,
      e.getEventData = encode_unsigned 12 ∧ e.getSignal = Signal.ButtonPressed ∧
      e.getPoolId = EventPool.Static) ∧
    decode_unsigned (encode_unsigned 12) = 12 :=
  ⟨(get_static_typed_event_generic_first_call_wins Signal.ButtonPressed ButtonMask
      (encode_unsigned 12) [encode_unsigned 14] (World.initial []) rfl).1,
   (get_static_typed_event_generic_first_call_wins Signal.ButtonPressed ButtonMask
      (encode_unsigned 12) [encode_unsigned 14] (World.initial []) rfl).2.1, rfl⟩

/-! ## The demonstration program -/

/-- The output of `main` when the heap serves its six allocations: twelve lines, among them
`data:12` twice for the two calls of `get_static_typed_event_generic`. -/
theorem main_output :
    ∃ w1, main (World.initial [4096, 4160, 4224, 4288, 4416, 4480]) = Outcome.ok 0 w1 ∧
      w1.cout =
        [Tok.str "Event pool:", Tok.int 0, Tok.str " signal:", Tok.int 3, Tok.str " data:",
          Tok.str "x:", Tok.int 1, Tok.str " y:", Tok.int 2, Tok.endl,
         Tok.str "Event pool:", Tok.int 0, Tok.str " signal:", Tok.int 1, Tok.str " data:",
          Tok.int 21, Tok.endl,
         Tok.str "Event pool:", Tok.int 0, Tok.str " signal:", Tok.int 2, Tok.str " data:",
          Tok.str "N/A", Tok.endl,
         Tok.str "Event pool:", Tok.int 1, Tok.str " signal:", Tok.int 2, Tok.str " data:",
          Tok.str "N/A", Tok.endl,
         Tok.str "Event pool:", Tok.int 1, Tok.str " signal:", Tok.int 3, Tok.str " data:",
          Tok.str "x:", Tok.int 1, Tok.str " y:", Tok.int 2, Tok.endl,
         Tok.str "Event pool:", Tok.int 0, Tok.str " signal:", Tok.int 1, Tok.str " data:",
          Tok.int 12, Tok.endl,
         Tok.str "Event pool:", Tok.int 0, Tok.str " signal:", Tok.int 1, Tok.str " data:",
          Tok.int 12, Tok.endl,
         Tok.str "Event pool:", Tok.int 1, Tok.str " signal:", Tok.int 1, Tok.str " data:",
          Tok.int 42, Tok.endl,
         Tok.str "Event pool:", Tok.int 1, Tok.str " signal:", Tok.int 2, Tok.str " data:",
          Tok.str "N/A", Tok.endl,
         Tok.str "Event pool:", Tok.int 1, Tok.str " signal:", Tok.int 3, Tok.str " data:",
          Tok.str "x:", Tok.int 1, Tok.str " y:", Tok.int 2, Tok.endl,
         Tok.str "Event pool:", Tok.int 2, Tok.str " signal:", Tok.int 4, Tok.str " data:",
          Tok.str "deviceIdx:", Tok.int 0, Tok.endl,
         Tok.str "Event pool:", Tok.int 0, Tok.str " signal:", Tok.int 4, Tok.str " data:",
          Tok.str "deviceIdx:", Tok.int 1, Tok.endl] ∧
      w1.global_small_pool_manager.requests = [24, 16, 16, 24, 24] ∧
      w1.global_large_pool_manager.requests = [80] :=
  ⟨_, rfl, rfl, rfl, rfl⟩

end TypedEvents
